import Mathlib

/-!
Formal model of the LISFLOOD paddy-rice irrigation module
(`src/lisflood/hydrological_modules/riceirrigation.py`).

All quantities in the module are element-wise per-cell raster arrays; every
array operation (`np.where`, `np.maximum`, arithmetic, comparisons) acts
independently on each cell.  We therefore model the state of a single cell,
with each per-cell array becoming a rational-valued field, and element-wise
numpy expressions becoming rational expressions.  Machine floats are
idealised as exact rationals: the claims under study concern the gating,
guarding and algebraic structure of the computation, not rounding.

The vegetation/land-use indexing (`iveg`, `ilanduse`) selects one fixed
vegetation class ("Rainfed_prescribed"); in the single-cell model the
selected entries become plain fields (`W1`, `WS1`, `WFC1`, `ESAct`, `Ta`,
`SoilFraction`, `UZ`).
-/

/-- Configuration flags read from `LisSettings.instance().options`. -/
structure Options where
  riceIrrigation : Bool
  wateruse : Bool

/-- Per-cell state of the module: loaded parameter maps, read-only per-step
inputs from the surrounding model, and the two mutated quantities
(`PaddyRiceWaterAbstractionFromSurfaceWaterM3` and `UZ`). -/
structure ModState where
  RiceFlooding : ℚ
  RicePercolation : ℚ
  RicePlantingDay1 : ℚ
  RiceHarvestDay1 : ℚ
  RicePlantingDay2 : ℚ
  RiceHarvestDay2 : ℚ
  CalendarDay : ℚ
  WS1 : ℚ
  W1 : ℚ
  WFC1 : ℚ
  EWRef : ℚ
  ESAct : ℚ
  Ta : ℚ
  RiceFraction : ℚ
  SoilFraction : ℚ
  MMtoM3 : ℚ
  M3toMM : ℚ
  DtDay : ℚ
  UZ : ℚ
  PaddyRiceWaterAbstractionFromSurfaceWaterM3 : ℚ

/-- Day-of-year wrapping used for the four derived calendar markers:
`x = day - offset` followed by `np.where(x < 0, 365 + x, x)`. -/
def wrap (day offset : ℚ) : ℚ :=
  if day - offset < 0 then 365 + (day - offset) else day - offset

/-- Half-open day-window membership test
`(CalendarDay >= lo) & (CalendarDay < hi)` used by every phase mask. -/
def windowMask (lo hi day : ℚ) : Prop :=
  lo ≤ day ∧ day < hi

instance windowMaskDecidable (lo hi day : ℚ) : Decidable (windowMask lo hi day) :=
  inferInstanceAs (Decidable (lo ≤ day ∧ day < hi))

/-- `pl_20 = np.where(RicePlantingDay1 - 20 < 0, 365 + ..., ...)`. -/
def pl_20 (s : ModState) : ℚ := wrap s.RicePlantingDay1 20

/-- `pl_10`: ten days before first planting, wrapped. -/
def pl_10 (s : ModState) : ℚ := wrap s.RicePlantingDay1 10

/-- `ha_20`: twenty days before first harvest, wrapped. -/
def ha_20 (s : ModState) : ℚ := wrap s.RiceHarvestDay1 20

/-- `ha_10`: ten days before first harvest, wrapped. -/
def ha_10 (s : ModState) : ℚ := wrap s.RiceHarvestDay1 10

/-- `RiceSoilSaturationDemandM3 = (WS1 - W1) * RiceFraction * MMtoM3 * DtDay`
(layers 1a and 1b only, per the January 2022 edit). -/
def RiceSoilSaturationDemandM3 (s : ModState) : ℚ :=
  (s.WS1 - s.W1) * s.RiceFraction * s.MMtoM3 * s.DtDay

/-- Phase 1 (field preparation, soil saturation):
`np.where((CalendarDay >= pl_20) & (CalendarDay < pl_10), 0.1 * demand, 0)`. -/
def RiceSoilSaturationM3 (s : ModState) : ℚ :=
  if windowMask (pl_20 s) (pl_10 s) s.CalendarDay
  then 0.1 * RiceSoilSaturationDemandM3 s else 0

/-- `RiceEva = np.maximum(EWRef - (ESAct + Ta), 0)`. -/
def RiceEva (s : ModState) : ℚ :=
  max (s.EWRef - (s.ESAct + s.Ta)) 0

/-- `RiceEvaporationDemandM3 = RiceEva * RiceFraction * MMtoM3`. -/
def RiceEvaporationDemandM3 (s : ModState) : ℚ :=
  RiceEva s * s.RiceFraction * s.MMtoM3

/-- `RiceFloodingDemandM3 = RiceFlooding * RiceFraction * MMtoM3 * DtDay`. -/
def RiceFloodingDemandM3 (s : ModState) : ℚ :=
  s.RiceFlooding * s.RiceFraction * s.MMtoM3 * s.DtDay

/-- Phase 2 (flooding): gated on `[pl_10, RicePlantingDay1)`. -/
def RiceFloodingM3 (s : ModState) : ℚ :=
  if windowMask (pl_10 s) s.RicePlantingDay1 s.CalendarDay
  then RiceFloodingDemandM3 s + RiceEvaporationDemandM3 s else 0

/-- Phase 3 (growth, open-water evaporation): gated on
`[RicePlantingDay1, ha_20)`. -/
def RiceEvaporationM3 (s : ModState) : ℚ :=
  if windowMask s.RicePlantingDay1 (ha_20 s) s.CalendarDay
  then RiceEvaporationDemandM3 s else 0

/-- `RicePercolationDemandM3 = RicePercolation * RiceFraction * MMtoM3 * DtDay`. -/
def RicePercolationDemandM3 (s : ModState) : ℚ :=
  s.RicePercolation * s.RiceFraction * s.MMtoM3 * s.DtDay

/-- Phase 3 (growth, percolation): gated on `[RicePlantingDay1, ha_20)`. -/
def RicePercolationM3 (s : ModState) : ℚ :=
  if windowMask s.RicePlantingDay1 (ha_20 s) s.CalendarDay
  then RicePercolationDemandM3 s else 0

/-- `RiceDrainageDemandM3 = (WS1 - WFC1) * RiceFraction * MMtoM3 * DtDay`
(layers 1a and 1b only, per the January 2022 edit). -/
def RiceDrainageDemandM3 (s : ModState) : ℚ :=
  (s.WS1 - s.WFC1) * s.RiceFraction * s.MMtoM3 * s.DtDay

/-- Phase 5 (drainage): gated on `[ha_10, RiceHarvestDay1)`. -/
def RiceDrainageM3 (s : ModState) : ℚ :=
  if windowMask (ha_10 s) s.RiceHarvestDay1 s.CalendarDay
  then 0.1 * RiceDrainageDemandM3 s else 0

/-- Body of `riceirrigation.dynamic` under `option['riceIrrigation']`:
stores the four-term sum into
`PaddyRiceWaterAbstractionFromSurfaceWaterM3` and adds the guarded
drainage-plus-percolation contribution to `UZ`. -/
def dynamicOn (s : ModState) : ModState :=
  { s with
    PaddyRiceWaterAbstractionFromSurfaceWaterM3 :=
      RiceSoilSaturationM3 s + RiceFloodingM3 s + RiceEvaporationM3 s +
        RicePercolationM3 s
    UZ := s.UZ +
      (if 0 < s.SoilFraction
       then (RiceDrainageM3 s + RicePercolationM3 s) * s.M3toMM / s.SoilFraction
       else 0) }

/-- `riceirrigation.dynamic`: the whole body is skipped when the
`riceIrrigation` option is off. -/
def dynamic (opt : Options) (s : ModState) : ModState :=
  if opt.riceIrrigation then dynamicOn s else s

/-- Error message raised by `riceirrigation.initial` when `riceIrrigation`
is on but `wateruse` is off. -/
def riceWateruseErrorMsg : String :=
  "riceIrrigation module ON MUST HAVE wateruse option ON in setting file"

/-- Observable outcome of `riceirrigation.initial`: the zero-initialised
output accumulator, the ordered list of parameter maps passed to `loadmap`
before returning or raising, and the raised `LisfloodError` message if any. -/
structure InitResult where
  paddyAcc : ℚ
  loadedMaps : List String
  error : Option String

/-- `riceirrigation.initial`: always zeroes the accumulator first; with
`riceIrrigation` on and `wateruse` off it raises `LisfloodError` before any
`loadmap` call; otherwise with the flag on it loads the six parameter maps
in source order; with the flag off it loads nothing. -/
def initial (opt : Options) : InitResult :=
  if opt.riceIrrigation then
    if !opt.wateruse then
      { paddyAcc := 0, loadedMaps := [], error := some riceWateruseErrorMsg }
    else
      { paddyAcc := 0
        loadedMaps := ["RiceFlooding", "RicePercolation", "RicePlantingDay1",
          "RiceHarvestDay1", "RicePlantingDay2", "RiceHarvestDay2"]
        error := none }
  else
    { paddyAcc := 0, loadedMaps := [], error := none }

/-- Options with both features on, as in a rice-irrigation run. -/
def optsOn : Options := { riceIrrigation := true, wateruse := true }

/-- Options with rice irrigation requested but water-use accounting off. -/
def optsNoWateruse : Options := { riceIrrigation := true, wateruse := false }

/-- Options with the rice-irrigation feature off. -/
def optsOff : Options := { riceIrrigation := false, wateruse := true }

/-- Concrete single-cell state from the specification scenario:
`RiceFraction = 0.5`, `MMtoM3 = 1000`, `DtDay = 1`, `RicePercolation = 2`,
`RicePlantingDay1 = 100`, `RiceHarvestDay1 = 200`, `WS1 = 300`, `W1 = 250`,
observed at `CalendarDay = 85`. -/
def exState : ModState :=
  { RiceFlooding := 10
    RicePercolation := 2
    RicePlantingDay1 := 100
    RiceHarvestDay1 := 200
    RicePlantingDay2 := 0
    RiceHarvestDay2 := 0
    CalendarDay := 85
    WS1 := 300
    W1 := 250
    WFC1 := 200
    EWRef := 5
    ESAct := 1
    Ta := 1
    RiceFraction := 1/2
    SoilFraction := 1/2
    MMtoM3 := 1000
    M3toMM := 1/1000
    DtDay := 1
    UZ := 7
    PaddyRiceWaterAbstractionFromSurfaceWaterM3 := 0 }

/-- The window test of any inverted window (`hi ≤ lo`) holds for no day. -/
lemma not_windowMask_of_le {lo hi : ℚ} (day : ℚ) (h : hi ≤ lo) :
    ¬ windowMask lo hi day := by
  rintro ⟨h1, h2⟩
  linarith

/-- Claim C4 counterexample: at `day = 20`, `offset = 20` the wrap function
returns `0`, which is outside `[1, 365]` and differs from the claimed value
`365 + day - offset = 365`. -/
theorem wrap_c4_counterexample :
    wrap 20 20 = 0 ∧ ¬ (1 ≤ wrap 20 20) ∧ wrap 20 20 ≠ 365 + (20 - 20) := by
  unfold wrap
  norm_num

/-- Claim C4 (amended): for every integer day in `[1, 365]` and offset in
`\x7b10, 20\x7d`, the wrap function returns a value in `[0, 365)` that equals
`day - offset` when `day ≥ offset`, and `365 + (day - offset)` when
`day < offset`. -/
theorem wrap_c4_amended (day offset : ℚ) (h1 : 1 ≤ day) (h2 : day ≤ 365)
    (h3 : offset = 10 ∨ offset = 20) :
    (0 ≤ wrap day offset ∧ wrap day offset < 365) ∧
    (offset ≤ day → wrap day offset = day - offset) ∧
    (day < offset → wrap day offset = 365 + (day - offset)) := by
  unfold wrap
  rcases h3 with rfl | rfl <;> split_ifs with h <;>
    exact ⟨⟨by linarith, by linarith⟩, fun hle => by linarith,
      fun hlt => by linarith⟩

/-- Witness for the amended C4 at `day = 100`, `offset = 10`. -/
theorem wrap_c4_amended_witness : wrap 100 10 = 90 := by
  have h := (wrap_c4_amended 100 10 (by norm_num) (by norm_num)
    (Or.inl rfl)).2.1 (by norm_num)
  rw [h]
  norm_num

/-- Claim C8: a wrapped phase window whose start is at or past its end
admits no calendar day: the half-open membership test is false for every
day, and each of the module's five phase terms vanishes whenever its own
window is inverted in this way. -/
theorem window_inversion_c8 (s : ModState) :
    (∀ lo hi : ℚ, hi ≤ lo → ¬ windowMask lo hi s.CalendarDay) ∧
    (pl_10 s ≤ pl_20 s → RiceSoilSaturationM3 s = 0) ∧
    (s.RicePlantingDay1 ≤ pl_10 s → RiceFloodingM3 s = 0) ∧
    (ha_20 s ≤ s.RicePlantingDay1 →
      RiceEvaporationM3 s = 0 ∧ RicePercolationM3 s = 0) ∧
    (s.RiceHarvestDay1 ≤ ha_10 s → RiceDrainageM3 s = 0) := by
  refine ⟨fun lo hi h => not_windowMask_of_le _ h, fun h => ?_, fun h => ?_,
    fun h => ⟨?_, ?_⟩, fun h => ?_⟩
  · rw [RiceSoilSaturationM3, if_neg (not_windowMask_of_le _ h)]
  · rw [RiceFloodingM3, if_neg (not_windowMask_of_le _ h)]
  · rw [RiceEvaporationM3, if_neg (not_windowMask_of_le _ h)]
  · rw [RicePercolationM3, if_neg (not_windowMask_of_le _ h)]
  · rw [RiceDrainageM3, if_neg (not_windowMask_of_le _ h)]

/-- State whose first planting day (15) makes the saturation window wrap
into an inverted, hence empty, window: `pl_20 = 360`, `pl_10 = 5`. -/
def exStateWrapped : ModState :=
  { exState with RicePlantingDay1 := 15 }

/-- Witness for C8: with planting day 15 the saturation window is
`[360, 5)`, inverted by wrapping, so the test fails on day 85 and the
saturation term is zero. -/
theorem window_inversion_c8_witness :
    ¬ windowMask 360 5 exStateWrapped.CalendarDay ∧
    RiceSoilSaturationM3 exStateWrapped = 0 := by
  refine ⟨(window_inversion_c8 exStateWrapped).1 360 5 (by norm_num),
    (window_inversion_c8 exStateWrapped).2.1 ?_⟩
  show pl_10 exStateWrapped ≤ pl_20 exStateWrapped
  norm_num [pl_10, pl_20, exStateWrapped, exState, wrap]

/-- Claim C1: with `riceIrrigation` on, the stored output
`PaddyRiceWaterAbstractionFromSurfaceWaterM3` is exactly the sum of the
four phase terms, each gated by its half-open day window and zero outside
it, with `evapDemand = max(EWRef - (ESAct + Ta), 0) * RiceFraction * MMtoM3`;
the drainage term is excluded: the output is independent of `WFC1`, the
only input the drainage term draws on beyond the shared factors. -/
theorem output_four_terms_c1 (opt : Options) (s : ModState)
    (h : opt.riceIrrigation = true) :
    (dynamic opt s).PaddyRiceWaterAbstractionFromSurfaceWaterM3 =
      (if windowMask (wrap s.RicePlantingDay1 20) (wrap s.RicePlantingDay1 10)
          s.CalendarDay
       then 0.1 * ((s.WS1 - s.W1) * s.RiceFraction * s.MMtoM3 * s.DtDay)
       else 0) +
      (if windowMask (wrap s.RicePlantingDay1 10) s.RicePlantingDay1
          s.CalendarDay
       then s.RiceFlooding * s.RiceFraction * s.MMtoM3 * s.DtDay +
         max (s.EWRef - (s.ESAct + s.Ta)) 0 * s.RiceFraction * s.MMtoM3
       else 0) +
      (if windowMask s.RicePlantingDay1 (wrap s.RiceHarvestDay1 20)
          s.CalendarDay
       then max (s.EWRef - (s.ESAct + s.Ta)) 0 * s.RiceFraction * s.MMtoM3
       else 0) +
      (if windowMask s.RicePlantingDay1 (wrap s.RiceHarvestDay1 20)
          s.CalendarDay
       then s.RicePercolation * s.RiceFraction * s.MMtoM3 * s.DtDay
       else 0) ∧
    ∀ w : ℚ,
      (dynamic opt { s with WFC1 := w }).PaddyRiceWaterAbstractionFromSurfaceWaterM3 =
        (dynamic opt s).PaddyRiceWaterAbstractionFromSurfaceWaterM3 := by
  constructor
  · simp only [dynamic, h, if_true, dynamicOn, RiceSoilSaturationM3,
      RiceSoilSaturationDemandM3, RiceFloodingM3, RiceFloodingDemandM3,
      RiceEvaporationM3, RiceEvaporationDemandM3, RiceEva, RicePercolationM3,
      RicePercolationDemandM3, pl_20, pl_10, ha_20]
  · intro w
    simp only [dynamic, h, if_true, dynamicOn, RiceSoilSaturationM3,
      RiceSoilSaturationDemandM3, RiceFloodingM3, RiceFloodingDemandM3,
      RiceEvaporationM3, RiceEvaporationDemandM3, RiceEva, RicePercolationM3,
      RicePercolationDemandM3, pl_20, pl_10, ha_20]

/-- Witness for C1 on the specification scenario: at day 85 only the
saturation window `[80, 90)` is active and the output is
`0.1 * (300 - 250) * 0.5 * 1000 * 1 = 2500`; changing `WFC1` to `0`
leaves the output unchanged. -/
theorem output_four_terms_c1_witness :
    (dynamic optsOn exState).PaddyRiceWaterAbstractionFromSurfaceWaterM3 = 2500 ∧
    (dynamic optsOn { exState with WFC1 := 0 }).PaddyRiceWaterAbstractionFromSurfaceWaterM3 =
      (dynamic optsOn exState).PaddyRiceWaterAbstractionFromSurfaceWaterM3 := by
  have h := output_four_terms_c1 optsOn exState rfl
  refine ⟨?_, h.2 0⟩
  rw [h.1]
  norm_num [windowMask, wrap, exState]

/-- Claim C2: with `riceIrrigation` on, wherever `SoilFraction > 0` the
upper-zone store is incremented by exactly
`(drainageTerm + percolationTerm) * M3toMM / SoilFraction`, the drainage
term being `0.1 * (WS1 - WFC1) * RiceFraction * MMtoM3 * DtDay` gated on
`[ha_10, RiceHarvestDay1)`; wherever `SoilFraction = 0` the store is left
unchanged. -/
theorem uz_update_c2 (opt : Options) (s : ModState)
    (h : opt.riceIrrigation = true) :
    (0 < s.SoilFraction →
      (dynamic opt s).UZ = s.UZ +
        ((if windowMask (wrap s.RiceHarvestDay1 10) s.RiceHarvestDay1
            s.CalendarDay
          then 0.1 * ((s.WS1 - s.WFC1) * s.RiceFraction * s.MMtoM3 * s.DtDay)
          else 0) +
         (if windowMask s.RicePlantingDay1 (wrap s.RiceHarvestDay1 20)
            s.CalendarDay
          then s.RicePercolation * s.RiceFraction * s.MMtoM3 * s.DtDay
          else 0)) * s.M3toMM / s.SoilFraction) ∧
    (s.SoilFraction = 0 → (dynamic opt s).UZ = s.UZ) := by
  constructor
  · intro hsf
    simp only [dynamic, h, if_true, dynamicOn, if_pos hsf, RiceDrainageM3,
      RiceDrainageDemandM3, RicePercolationM3, RicePercolationDemandM3,
      ha_10, ha_20]
  · intro hsf
    simp [dynamic, h, dynamicOn, hsf]

/-- The specification scenario observed at day 195, inside the drainage
window `[190, 200)`. -/
def exStateDrain : ModState :=
  { exState with CalendarDay := 195 }

/-- Witness for C2 at day 195 with `SoilFraction = 1/2 > 0`: only drainage
is active, contributing `0.1 * (300 - 200) * 0.5 * 1000 * 1 = 5000` m3,
so `UZ` becomes `7 + 5000 * (1/1000) / (1/2) = 17`. -/
theorem uz_update_c2_witness :
    0 < exStateDrain.SoilFraction ∧ (dynamic optsOn exStateDrain).UZ = 17 := by
  have hsf : 0 < exStateDrain.SoilFraction := by norm_num [exStateDrain, exState]
  refine ⟨hsf, ?_⟩
  rw [(uz_update_c2 optsOn exStateDrain rfl).1 hsf]
  norm_num [windowMask, wrap, exStateDrain, exState]

/-- Claim C5: with `riceIrrigation` on, under the data-model invariants
(soil water content at most saturation, and non-negative rice fraction,
conversion factor, step length, flooding rate and percolation rate) the
stored output `PaddyRiceWaterAbstractionFromSurfaceWaterM3` is
non-negative; the evaporation residual is floored at zero by `RiceEva`. -/
theorem output_nonneg_c5 (opt : Options) (s : ModState)
    (h : opt.riceIrrigation = true)
    (hW : s.W1 ≤ s.WS1) (hRF : 0 ≤ s.RiceFraction) (hMM : 0 ≤ s.MMtoM3)
    (hDt : 0 ≤ s.DtDay) (hFl : 0 ≤ s.RiceFlooding)
    (hPc : 0 ≤ s.RicePercolation) :
    0 ≤ (dynamic opt s).PaddyRiceWaterAbstractionFromSurfaceWaterM3 := by
  have hEva : 0 ≤ RiceEva s := le_max_right _ _
  have hEvaDem : 0 ≤ RiceEvaporationDemandM3 s :=
    mul_nonneg (mul_nonneg hEva hRF) hMM
  have hSat : 0 ≤ RiceSoilSaturationM3 s := by
    rw [RiceSoilSaturationM3]
    split
    · have hsub : 0 ≤ s.WS1 - s.W1 := by linarith
      have : 0 ≤ RiceSoilSaturationDemandM3 s :=
        mul_nonneg (mul_nonneg (mul_nonneg hsub hRF) hMM) hDt
      positivity
    · exact le_refl 0
  have hFld : 0 ≤ RiceFloodingM3 s := by
    rw [RiceFloodingM3]
    split
    · have : 0 ≤ RiceFloodingDemandM3 s :=
        mul_nonneg (mul_nonneg (mul_nonneg hFl hRF) hMM) hDt
      linarith
    · exact le_refl 0
  have hEvap : 0 ≤ RiceEvaporationM3 s := by
    rw [RiceEvaporationM3]
    split
    · exact hEvaDem
    · exact le_refl 0
  have hPerc : 0 ≤ RicePercolationM3 s := by
    rw [RicePercolationM3]
    split
    · exact mul_nonneg (mul_nonneg (mul_nonneg hPc hRF) hMM) hDt
    · exact le_refl 0
  simp only [dynamic, h, if_true, dynamicOn]
  linarith

/-- Witness for C5 on the specification scenario: all invariant hypotheses
hold and the day-85 output 2500 is non-negative. -/
theorem output_nonneg_c5_witness :
    0 ≤ (dynamic optsOn exState).PaddyRiceWaterAbstractionFromSurfaceWaterM3 :=
  output_nonneg_c5 optsOn exState rfl (by norm_num [exState])
    (by norm_num [exState]) (by norm_num [exState]) (by norm_num [exState])
    (by norm_num [exState]) (by norm_num [exState])

/-- Claim C6: with `riceIrrigation` on, wherever `SoilFraction = 0` the
division in the upper-zone update is bypassed by the explicit guard
`SoilFraction > 0`, the contribution is exactly zero, and `UZ` is stored
back unchanged. -/
theorem zero_fraction_safe_c6 (opt : Options) (s : ModState)
    (h : opt.riceIrrigation = true) (hsf : s.SoilFraction = 0) :
    (if 0 < s.SoilFraction
     then (RiceDrainageM3 s + RicePercolationM3 s) * s.M3toMM / s.SoilFraction
     else 0) = 0 ∧
    (dynamic opt s).UZ = s.UZ := by
  constructor
  · rw [if_neg]
    rw [hsf]
    exact lt_irrefl 0
  · simp [dynamic, h, dynamicOn, hsf]

/-- The specification scenario with a vanishing vegetation soil fraction. -/
def exStateZeroSF : ModState :=
  { exState with SoilFraction := 0 }

/-- Witness for C6: with `SoilFraction = 0` the stored `UZ` stays at 7. -/
theorem zero_fraction_safe_c6_witness :
    (dynamic optsOn exStateZeroSF).UZ = 7 := by
  rw [(zero_fraction_safe_c6 optsOn exStateZeroSF rfl rfl).2]
  norm_num [exStateZeroSF, exState]

/-- Claim C7: with `riceIrrigation` on, under the data-model invariants
(field capacity at most saturation, and non-negative rice fraction,
conversion factors, step length and percolation rate) the module only ever
increments `UZ`: the post-step value is at least the pre-step value. -/
theorem uz_monotone_c7 (opt : Options) (s : ModState)
    (h : opt.riceIrrigation = true)
    (hWFC : s.WFC1 ≤ s.WS1) (hRF : 0 ≤ s.RiceFraction) (hMM : 0 ≤ s.MMtoM3)
    (hDt : 0 ≤ s.DtDay) (hPc : 0 ≤ s.RicePercolation)
    (hM3 : 0 ≤ s.M3toMM) :
    s.UZ ≤ (dynamic opt s).UZ := by
  have hDr : 0 ≤ RiceDrainageM3 s := by
    rw [RiceDrainageM3]
    split
    · have hsub : 0 ≤ s.WS1 - s.WFC1 := by linarith
      have : 0 ≤ RiceDrainageDemandM3 s :=
        mul_nonneg (mul_nonneg (mul_nonneg hsub hRF) hMM) hDt
      positivity
    · exact le_refl 0
  have hPerc : 0 ≤ RicePercolationM3 s := by
    rw [RicePercolationM3]
    split
    · exact mul_nonneg (mul_nonneg (mul_nonneg hPc hRF) hMM) hDt
    · exact le_refl 0
  have hContrib : 0 ≤
      (if 0 < s.SoilFraction
       then (RiceDrainageM3 s + RicePercolationM3 s) * s.M3toMM / s.SoilFraction
       else 0) := by
    split
    · next hsf =>
        exact div_nonneg (mul_nonneg (by linarith) hM3) (le_of_lt hsf)
    · exact le_refl 0
  simp only [dynamic, h, if_true, dynamicOn]
  linarith

/-- Witness for C7 at day 195: `UZ` rises from 7 to 17, and 7 ≤ 17. -/
theorem uz_monotone_c7_witness :
    exStateDrain.UZ ≤ (dynamic optsOn exStateDrain).UZ :=
  uz_monotone_c7 optsOn exStateDrain rfl (by norm_num [exStateDrain, exState])
    (by norm_num [exStateDrain, exState]) (by norm_num [exStateDrain, exState])
    (by norm_num [exStateDrain, exState]) (by norm_num [exStateDrain, exState])
    (by norm_num [exStateDrain, exState])

/-- Claim C3: with `riceIrrigation` on and `wateruse` off, initialisation
raises the fatal `LisfloodError` before any parameter map is loaded (the
load trace is empty), and its message names both flags. -/
theorem config_error_c3 (opt : Options)
    (h1 : opt.riceIrrigation = true) (h2 : opt.wateruse = false) :
    (initial opt).error = some riceWateruseErrorMsg ∧
    (initial opt).loadedMaps = [] ∧
    (∃ a b : String, riceWateruseErrorMsg = a ++ "riceIrrigation" ++ b) ∧
    (∃ a b : String, riceWateruseErrorMsg = a ++ "wateruse" ++ b) := by
  refine ⟨by simp [initial, h1, h2], by simp [initial, h1, h2], ?_, ?_⟩
  · exact ⟨"", " module ON MUST HAVE wateruse option ON in setting file", rfl⟩
  · exact ⟨"riceIrrigation module ON MUST HAVE ",
      " option ON in setting file", rfl⟩

/-- Witness for C3 with the concrete flag pair
`riceIrrigation = true`, `wateruse = false`. -/
theorem config_error_c3_witness :
    (initial optsNoWateruse).error = some riceWateruseErrorMsg ∧
    (initial optsNoWateruse).loadedMaps = [] :=
  ⟨(config_error_c3 optsNoWateruse rfl rfl).1,
    (config_error_c3 optsNoWateruse rfl rfl).2.1⟩

/-- Claim C9: with `riceIrrigation` off, initialisation loads no parameter
map, raises no error and zeroes the output accumulator, and every per-step
call is the identity on the whole per-cell state — so arbitrarily many
steps leave the accumulator all-zero and `UZ` (and everything else)
untouched. -/
theorem feature_off_c9 (opt : Options) (h : opt.riceIrrigation = false) :
    (initial opt).paddyAcc = 0 ∧ (initial opt).loadedMaps = [] ∧
    (initial opt).error = none ∧
    (∀ s : ModState, dynamic opt s = s) ∧
    ∀ (n : ℕ) (s : ModState), (dynamic opt)^[n] s = s := by
  have hfix : ∀ s : ModState, dynamic opt s = s := by
    intro s
    simp [dynamic, h]
  exact ⟨by simp [initial, h], by simp [initial, h], by simp [initial, h],
    hfix, fun n s => Function.iterate_fixed (hfix s) n⟩

/-- Witness for C9: with the feature off, three steps from the
specification scenario change nothing, so the accumulator stays 0. -/
theorem feature_off_c9_witness :
    (dynamic optsOff)^[3] exState = exState ∧
    ((dynamic optsOff)^[3] exState).PaddyRiceWaterAbstractionFromSurfaceWaterM3 = 0 := by
  have h := (feature_off_c9 optsOff rfl).2.2.2.2 3 exState
  exact ⟨h, by rw [h]; norm_num [exState]⟩

/-- Claim C10: the per-step evaluation is deterministic: two invocations of
`dynamic` from identical input states produce identical stored outputs and
identical post-step `UZ` values (the model is a pure function of the
configuration and the per-cell state). -/
theorem deterministic_c10 (opt : Options) (s t : ModState) (h : s = t) :
    (dynamic opt s).PaddyRiceWaterAbstractionFromSurfaceWaterM3 =
      (dynamic opt t).PaddyRiceWaterAbstractionFromSurfaceWaterM3 ∧
    (dynamic opt s).UZ = (dynamic opt t).UZ := by
  subst h
  exact ⟨rfl, rfl⟩

/-- Witness for C10 on the specification scenario. -/
theorem deterministic_c10_witness :
    (dynamic optsOn exState).PaddyRiceWaterAbstractionFromSurfaceWaterM3 =
      (dynamic optsOn exState).PaddyRiceWaterAbstractionFromSurfaceWaterM3 ∧
    (dynamic optsOn exState).UZ = (dynamic optsOn exState).UZ :=
  deterministic_c10 optsOn exState exState rfl
